import Mathlib

/-!
Verification of the block application and chain mutation core
(`modules/chain/submodules/chain.js` of the lisk-sdk framework).

The chain mutator is embedded shallowly: each source function becomes a Lean
function over an explicit `ChainState`.  The collaborators that live outside
this module (transaction executor, account store, transaction pool internals,
rounds controller, persistence layer) are modelled from the specification:
balance effects are explicit ledger updates, and every fallible collaborator
call is driven by an `Env` record that says whether that call fails and with
which error, mirroring the error channels of the source.

State is split the way the runtime splits it:
 * database state (`storedBlocks`, `ledger`) is rolled back when a
   persistence transaction (`library.db.tx`) fails;
 * in-memory state (`lastBlock` register, `isActive` flag, transaction
   `pool`, emitted `bus` messages, `sigterm` / `exited` process signals)
   is never rolled back, exactly as in the source where these are plain
   JavaScript objects and events.
-/

namespace LiskChain

/-- Modelled from the spec: the transaction `type` enumeration of
`helpers/transaction_types.js` (not under src); `VOTE = 3`, transfer (`SEND`)
is `0`.  Only the `VOTE` discrimination matters to the chain module. -/
def VOTE : Nat := 3

/-- A transaction as the chain module sees it: `id`, `type`,
`senderPublicKey`, a recipient and an amount for its modelled balance
effect, and the `blockId` that `saveBlock` assigns when the transaction is
persisted inside a block. -/
structure Tx where
  id : Nat
  type : Nat
  senderPublicKey : Nat
  recipientId : Nat
  amount : Int
  blockId : Nat
  deriving DecidableEq, Repr

/-- A normalized block: `id`, `height`, `previousBlock` (the id of the
parent, as the field is named on normalized blocks in the source) and the
ordered transaction list. -/
structure Block where
  id : Nat
  height : Nat
  previousBlock : Nat
  transactions : List Tx
  deriving DecidableEq, Repr

/-- An error value on the callback channel.  JavaScript errors are either
plain strings (then `name` is `none`: a string has no `name` property that
could equal `Snapshot finished`) or `Error`-like objects carrying a `name`,
which is what `applyBlock` inspects for the snapshot sentinel. -/
structure Err where
  name : Option String
  text : String
  deriving DecidableEq, Repr

/-- A plain string error, as produced by the callback chains of the source. -/
def strErr (t : String) : Err := ⟨none, t⟩

/-- Messages emitted on the bus (`library.bus.message`). -/
inductive BusMsg where
  | transactionsSaved (txIds : List Nat)
  | newBlock (blockId : Nat)
  | broadcastBlock (blockId : Nat)
  deriving DecidableEq, Repr

/-- Modelled from the spec: the account store's two balance views, as total
maps from a public key to the confirmed (`balance`) and unconfirmed
(`ubalance`) balances; `setAccountAndGet` get-or-creates an account with
zero balances, which the total-map representation gives for free. -/
structure Ledger where
  balance : Nat → Int
  ubalance : Nat → Int

/-- Point update of a confirmed balance. -/
def Ledger.updBal (L : Ledger) (pk : Nat) (d : Int) : Ledger :=
  { L with balance := fun p => if p = pk then L.balance p + d else L.balance p }

/-- Point update of an unconfirmed balance. -/
def Ledger.updUBal (L : Ledger) (pk : Nat) (d : Int) : Ledger :=
  { L with ubalance := fun p => if p = pk then L.ubalance p + d else L.ubalance p }

/-- Modelled from the spec: `modules.transactions.applyUnconfirmed` deducts
the transaction's unconfirmed-balance effect from the sender. -/
def applyUnconfirmedTx (L : Ledger) (t : Tx) : Ledger :=
  L.updUBal t.senderPublicKey (-t.amount)

/-- Modelled from the spec: `modules.transactions.undoUnconfirmed` reverses
`applyUnconfirmed`. -/
def undoUnconfirmedTx (L : Ledger) (t : Tx) : Ledger :=
  L.updUBal t.senderPublicKey t.amount

/-- Modelled from the spec: `modules.transactions.apply` commits the
confirmed effect: debit the sender, credit the recipient. -/
def applyConfirmedTx (L : Ledger) (t : Tx) : Ledger :=
  (L.updBal t.senderPublicKey (-t.amount)).updBal t.recipientId t.amount

/-- Modelled from the spec: `modules.transactions.undo` reverses `apply`. -/
def undoConfirmedTx (L : Ledger) (t : Tx) : Ledger :=
  (L.updBal t.recipientId (-t.amount)).updBal t.senderPublicKey t.amount

/-- The per-transaction undo of `popLastBlock`: confirmed effect first, then
unconfirmed effect, as its promise chain performs them. -/
def undoBothTx (L : Ledger) (t : Tx) : Ledger :=
  undoUnconfirmedTx (undoConfirmedTx L t) t

/-- The full state the chain module can observe or mutate.  `storedBlocks`
and `ledger` are database state (rolled back with a failed persistence
transaction); everything else is in-memory process state.  `dbTxCommits`
records the names of the committed persistence transactions, `sigterm`
records `process.emit` of SIGTERM, `exited` records `process.exit(0)`. -/
structure ChainState where
  lastBlock : Block
  isActive : Bool
  storedBlocks : List Block
  ledger : Ledger
  pool : List Tx
  bus : List BusMsg
  sigterm : Bool
  exited : Bool
  dbTxCommits : List String

/-- Result of a callback-style operation: the error slot of the callback
plus the state in which the callback fires. -/
abbrev StepResult := Option Err × ChainState

/-- Rollback of a failed persistence transaction: database state reverts to
the snapshot taken when the transaction opened, in-memory state keeps the
changes made inside the transaction body. -/
def rollbackDb (snap cur : ChainState) : ChainState :=
  { cur with storedBlocks := snap.storedBlocks, ledger := snap.ledger }

/-- Failure injection for every collaborator call the chain module makes.
`none` (or a function returning `none`) means the call succeeds; `some`
makes the collaborator fail with that error, keyed by transaction id where
the source makes one call per transaction. -/
structure Env where
  undoUnconfirmedListError : Option String
  applyUnconfirmedError : Nat → Option String
  applyConfirmedError : Nat → Option String
  saveBlockError : Option String
  tickError : Option Err
  backwardTickError : Option String
  undoError : Nat → Option String
  undoUnconfirmedError : Nat → Option String
  deleteBlockError : Option String
  loadBlocksPartError : Option String
  receiveTransactionsError : Option String

/-- The environment in which every collaborator call succeeds. -/
def Env.ok : Env :=
  ⟨none, fun _ => none, fun _ => none, none, none, none,
   fun _ => none, fun _ => none, none, none, none⟩

/-- Embeds `async`/`Promise.mapSeries` sequencing: run `f` on each element in
order, stopping at the first error, threading the state. -/
def runSeq (f : Tx → ChainState → StepResult) : List Tx → ChainState → StepResult
  | [], s => (none, s)
  | t :: ts, s =>
    match f t s with
    | (some e, s') => (some e, s')
    | (none, s') => runSeq f ts s'

/-- Embeds `block.transactions.map(t => { t.blockId = block.id; ... })` at the top
of `Chain.prototype.saveBlock`: every transaction of the block gets the
block's id (an in-place mutation of the shared transaction objects). -/
def assignBlockIds (b : Block) : Block :=
  { b with transactions := b.transactions.map fun t => { t with blockId := b.id } }

/-- Embeds `Chain.prototype.saveBlock` running inside an already-open persistence
transaction: assign `blockId`s, batch-write the block row and its
transaction rows, then `__private.afterSave` emits `transactionsSaved` on
the bus.  A batch failure surfaces as the string `Blocks#saveBlock error`. -/
def saveBlock (env : Env) (b : Block) (s : ChainState) : StepResult :=
  match env.saveBlockError with
  | some _ => (some (strErr "Blocks#saveBlock error"), s)
  | none =>
    let b' := assignBlockIds b
    (none, { s with
      storedBlocks := s.storedBlocks ++ [b'],
      bus := s.bus ++ [BusMsg.transactionsSaved (b'.transactions.map Tx.id)] })

/-- Embeds `Chain.prototype.saveGenesisBlock`: query storage for the configured
genesis id; if present succeed as a no-op, otherwise `saveBlock` the genesis
block inside its own persistence transaction `Chain:saveBlock`. -/
def saveGenesisBlock (env : Env) (g : Block) (s : ChainState) : StepResult :=
  if s.storedBlocks.any (fun b => b.id == g.id) then (none, s)
  else
    match saveBlock env g s with
    | (some e, s1) => (some e, s1)
    | (none, s1) => (none, { s1 with dbTxCommits := s1.dbTxCommits ++ ["Chain:saveBlock"] })

/-- Embeds `Chain.prototype.deleteBlock`: delete the block row (the schema cascades
to its transactions); a failure surfaces as `Blocks#deleteBlock error`. -/
def deleteBlock (env : Env) (blockId : Nat) (s : ChainState) : StepResult :=
  match env.deleteBlockError with
  | some _ => (some (strErr "Blocks#deleteBlock error"), s)
  | none => (none, { s with storedBlocks := s.storedBlocks.filter (fun b => b.id != blockId) })

/-- The comparator passed to `block.transactions.sort` in
`Chain.prototype.applyGenesisBlock`: `a => a.type === VOTE ? 1 : 0`.
It ignores its second argument and never returns a negative value. -/
def genesisCompare (a _b : Tx) : Int :=
  if a.type = VOTE then 1 else 0

/-- One step of the sort used by the engine this SDK runs on:
`Array.prototype.sort` of V8 for short arrays (the pre-TimSort
`InsertionSort`, used for every array of at most 10 elements on the Node 8/10
runtimes of this SDK) inserts the next element before the maximal suffix of
the already-processed prefix whose elements compare greater than it. -/
def v8Insert (cmp : Tx → Tx → Int) (pre : List Tx) (x : Tx) : List Tx :=
  let rev := pre.reverse
  let shifted := rev.takeWhile (fun e => 0 < cmp e x)
  let kept := rev.dropWhile (fun e => 0 < cmp e x)
  kept.reverse ++ x :: shifted.reverse

/-- V8's short-array insertion sort, folded over the input. -/
def v8InsertionSort (cmp : Tx → Tx → Int) (xs : List Tx) : List Tx :=
  xs.foldl (v8Insert cmp) []

/-- Modelled from the spec: the stable VOTE-last partition the specification
contracts for genesis transaction ordering - every non-`VOTE` transaction
first, then every `VOTE` transaction, relative order preserved in each
group. -/
def specStablePartition (txs : List Tx) : List Tx :=
  txs.filter (fun t => t.type ≠ VOTE) ++ txs.filter (fun t => t.type = VOTE)

/-- Embeds `__private.applyTransaction` (used by `applyGenesisBlock`):
`setAccountAndGet` the sender, then apply the unconfirmed and the confirmed
effect of one transaction, with the error channels of the source. -/
def applyTransactionOne (env : Env) (t : Tx) (s : ChainState) : StepResult :=
  match env.applyUnconfirmedError t.id with
  | some m => (some (strErr m), s)
  | none =>
    let s1 := { s with ledger := applyUnconfirmedTx s.ledger t }
    match env.applyConfirmedError t.id with
    | some _ =>
      (some (strErr ("Failed to apply transaction: " ++ toString t.id)), s1)
    | none => (none, { s1 with ledger := applyConfirmedTx s1.ledger t })

/-- Embeds `Chain.prototype.applyGenesisBlock`: sort the block's transactions with
`genesisCompare` (mutating and reassigning `block.transactions`), apply each
in the sorted order; on any failure the node calls `process.exit(0)`;
on success set the Last-Block Register to the (sorted) genesis block and
run the forward round tick. -/
def applyGenesisBlock (env : Env) (b : Block) (s : ChainState) : StepResult :=
  let sorted := v8InsertionSort genesisCompare b.transactions
  let b' := { b with transactions := sorted }
  match runSeq (applyTransactionOne env) sorted s with
  | (some e, s1) => (some e, { s1 with exited := true })
  | (none, s1) =>
    let s2 := { s1 with lastBlock := b' }
    match env.tickError with
    | some e => (some e, s2)
    | none => (none, s2)

/-- Embeds `__private.undoUnconfirmedListStep`: roll back the unconfirmed effect of
every transaction currently in the pool (the pool itself keeps its entries);
a failure surfaces as `Failed to undo unconfirmed list` and is treated as
fatal by the caller.  This step runs before - and therefore outside - the
`Chain:applyBlock` persistence transaction. -/
def undoUnconfirmedListStep (env : Env) (s : ChainState) : StepResult :=
  match env.undoUnconfirmedListError with
  | some _ => (some (strErr "Failed to undo unconfirmed list"), s)
  | none => (none, { s with ledger := s.pool.foldl undoUnconfirmedTx s.ledger })

/-- One transaction of `__private.applyUnconfirmedStep`: `setAccountAndGet`
the sender, then `applyUnconfirmed`; a failure rejects with the wrapped
message of the source. -/
def applyUnconfirmedOne (env : Env) (t : Tx) (s : ChainState) : StepResult :=
  match env.applyUnconfirmedError t.id with
  | some _ =>
    (some (strErr ("Failed to apply unconfirmed transaction: " ++ toString t.id)), s)
  | none => (none, { s with ledger := applyUnconfirmedTx s.ledger t })

/-- Embeds `__private.applyUnconfirmedStep`: the unconfirmed effects of the block's
transactions, strictly in block order. -/
def applyUnconfirmedStep (env : Env) (b : Block) (s : ChainState) : StepResult :=
  runSeq (applyUnconfirmedOne env) b.transactions s

/-- One transaction of `__private.applyConfirmedStep`: `getAccount` the
sender, then `apply`; a failure rejects with the wrapped message of the
source. -/
def applyConfirmedOne (env : Env) (t : Tx) (s : ChainState) : StepResult :=
  match env.applyConfirmedError t.id with
  | some _ =>
    (some (strErr ("Failed to apply transaction: " ++ toString t.id)), s)
  | none => (none, { s with ledger := applyConfirmedTx s.ledger t })

/-- Embeds `__private.applyConfirmedStep`: the confirmed effects of the block's
transactions, strictly in block order. -/
def applyConfirmedStep (env : Env) (b : Block) (s : ChainState) : StepResult :=
  runSeq (applyConfirmedOne env) b.transactions s

/-- The forward round tick (`modules.rounds.tick`); the rounds bookkeeping
tables are collaborator-owned and out of scope, so only its error channel is
modelled. -/
def tickStep (env : Env) (s : ChainState) : StepResult :=
  match env.tickError with
  | some e => (some e, s)
  | none => (none, s)

/-- Embeds `__private.saveBlockStep`.  Its first statement is
`modules.blocks.lastBlock.set(block)`: the Last-Block Register is updated
inside the persistence transaction, before the block row is even written.
With `saveBlock = true` it then writes the block (which assigns the
`blockId`s in place, so the register's block carries them too), emits
`newBlock`, and runs the forward tick; with `saveBlock = false` it emits
`newBlock` and ticks without writing. -/
def saveBlockStep (env : Env) (b : Block) (save : Bool) (s : ChainState) : StepResult :=
  if save then
    let s1 := { s with lastBlock := assignBlockIds b }
    match saveBlock env b s1 with
    | (some _, s2) => (some (strErr "Failed to save block"), s2)
    | (none, s2) => tickStep env { s2 with bus := s2.bus ++ [BusMsg.newBlock b.id] }
  else
    tickStep env { s with lastBlock := b, bus := s.bus ++ [BusMsg.newBlock b.id] }

/-- The promise chain of `Chain.prototype.applyBlock` inside the
`Chain:applyBlock` persistence transaction: apply unconfirmed effects, then
confirmed effects (both in block order), then `saveBlockStep`. -/
def applyBlockBody (env : Env) (b : Block) (save : Bool) (s : ChainState) : StepResult :=
  match applyUnconfirmedStep env b s with
  | (some e, sm) => (some e, sm)
  | (none, sm) =>
    match applyConfirmedStep env b sm with
    | (some e, sm2) => (some e, sm2)
    | (none, sm2) => saveBlockStep env b save sm2

/-- The `library.db.tx('Chain:applyBlock', ...)` call of
`Chain.prototype.applyBlock` with its commit (`then`) and rollback (`catch`)
handlers.  The body first sets `isActive`.  On commit: remove the block's
transaction ids from the pool, clear `isActive`.  On rollback: database
state reverts to the snapshot `s1` taken at transaction open, `isActive` is
cleared, the error propagates; if the error object's `name` is
`Snapshot finished`, SIGTERM is additionally emitted.  The register update
and the bus messages of `saveBlockStep` are in-memory and survive the
rollback. -/
def applyBlockDbTx (env : Env) (b : Block) (save : Bool) (s1 : ChainState) : StepResult :=
  match applyBlockBody env b save { s1 with isActive := true } with
  | (none, s3) =>
    (none, { s3 with
      pool := s3.pool.filter (fun t => b.transactions.all (fun bt => bt.id != t.id)),
      isActive := false,
      dbTxCommits := s3.dbTxCommits ++ ["Chain:applyBlock"] })
  | (some e, s3) =>
    let s4 := { rollbackDb s1 s3 with isActive := false }
    if e.name = some "Snapshot finished" then (some e, { s4 with sigterm := true })
    else (some e, s4)

/-- Embeds `Chain.prototype.applyBlock`: first `__private.undoUnconfirmedListStep`
(outside any persistence transaction; its failure aborts the whole apply),
then the `Chain:applyBlock` persistence transaction. -/
def applyBlock (env : Env) (b : Block) (save : Bool) (s : ChainState) : StepResult :=
  match undoUnconfirmedListStep env s with
  | (some e, s1) => (some e, s1)
  | (none, s1) => applyBlockDbTx env b save s1

/-- Embeds `Chain.prototype.broadcastReducedBlock`: emit `broadcastBlock`. -/
def broadcastReducedBlock (b : Block) (s : ChainState) : ChainState :=
  { s with bus := s.bus ++ [BusMsg.broadcastBlock b.id] }

/-- Embeds `loadBlocksPart({ id })` as `popLastBlock` uses it: find the stored
block with the given id. -/
def lookupBlock (bs : List Block) (pid : Nat) : Option Block :=
  bs.find? (fun bb => bb.id == pid)

/-- The per-transaction body of `popLastBlock`'s undo loop: `getAccount` the
sender, `undo` the confirmed effect, then `undoUnconfirmed` the unconfirmed
effect. -/
def undoBothOne (env : Env) (t : Tx) (s : ChainState) : StepResult :=
  match env.undoError t.id with
  | some m => (some (strErr m), s)
  | none =>
    let s1 := { s with ledger := undoConfirmedTx s.ledger t }
    match env.undoUnconfirmedError t.id with
    | some m => (some (strErr m), s1)
    | none => (none, { s1 with ledger := undoUnconfirmedTx s1.ledger t })

/-- Result of `__private.popLastBlock`: the callback error slot, the block
handed to the callback as the new last block, the old tip as left behind by
the in-place `oldLastBlock.transactions.reverse()` (the variable of the
caller aliases this object), and the state. -/
structure PopResult where
  err : Option Err
  newLastBlock : Block
  oldMutated : Block
  state : ChainState

/-- Embeds `__private.popLastBlock`: inside the persistence transaction
`Chain:deleteBlock`, load the parent block, undo every transaction of the
old tip iterating the in-place-reversed transaction array (confirmed then
unconfirmed per transaction), run the backward tick, delete the old tip's
row.  Any failure rolls the transaction back and the process calls
`process.exit(0)` (the callback error is modelled even though the process
dies before delivering it). -/
def popLastBlock (env : Env) (oldLastBlock : Block) (s : ChainState) : PopResult :=
  let snap := s
  let fail := fun (e : Err) (mutated : Block) (sMid : ChainState) =>
    PopResult.mk (some e) oldLastBlock mutated { rollbackDb snap sMid with exited := true }
  match env.loadBlocksPartError with
  | some m => fail (strErr m) oldLastBlock s
  | none =>
    match lookupBlock s.storedBlocks oldLastBlock.previousBlock with
    | none => fail (strErr "previousBlock is null") oldLastBlock s
    | some previousBlock =>
      let oldMut := { oldLastBlock with transactions := oldLastBlock.transactions.reverse }
      match runSeq (undoBothOne env) oldMut.transactions s with
      | (some e, sm) => fail e oldMut sm
      | (none, sm) =>
        match env.backwardTickError with
        | some m => fail (strErr m) oldMut sm
        | none =>
          match deleteBlock env oldLastBlock.id sm with
          | (some e, sm2) => fail e oldMut sm2
          | (none, sm2) =>
            PopResult.mk none previousBlock oldMut
              { sm2 with dbTxCommits := sm2.dbTxCommits ++ ["Chain:deleteBlock"] }

/-- The waterfall body of `Chain.prototype.deleteLastBlock` (after the
genesis guard): `popLastBlock`, then - outside the persistence transaction -
`receiveTransactions(lastBlock.transactions.reverse(), ...)`.  The local
`lastBlock` aliases the object whose transactions `popLastBlock` already
reversed in place, so the reinserted list is the double-reversed, i.e.
original-order, transaction list.  A `receiveTransactions` failure is only
logged; the register is set to the new last block and the callback receives
no error either way. -/
def deleteLastBlockMain (env : Env) (s : ChainState) : StepResult :=
  let p := popLastBlock env s.lastBlock s
  match p.err with
  | some e => (some e, p.state)
  | none =>
    let txsToAdd := p.oldMutated.transactions.reverse
    match env.receiveTransactionsError with
    | some _ => (none, { p.state with lastBlock := p.newLastBlock })
    | none =>
      (none, { p.state with
        pool := p.state.pool ++ txsToAdd,
        ledger := txsToAdd.foldl applyUnconfirmedTx p.state.ledger,
        lastBlock := p.newLastBlock })

/-- Embeds `Chain.prototype.deleteLastBlock`: refuse with
`Cannot delete genesis block` when the register's height equals `1` (the
source tests `lastBlock.height === 1`), otherwise run the waterfall. -/
def deleteLastBlock (env : Env) (s : ChainState) : StepResult :=
  if s.lastBlock.height = 1 then (some (strErr "Cannot delete genesis block"), s)
  else deleteLastBlockMain env s

/-- Embeds `Chain.prototype.recoverChain`: delegate to `deleteLastBlock`. -/
def recoverChain (env : Env) (s : ChainState) : StepResult :=
  match deleteLastBlock env s with
  | (some e, s1) => (some e, s1)
  | (none, s1) => (none, s1)

/-! ### Ledger bookkeeping lemmas

The balance effect of each executor call is a point delta; the fold lemmas
below express each sequencing step as a sum of deltas so that the round-trip
law becomes linear arithmetic. -/

/-- The unconfirmed-balance delta a transaction charges the key `pk`. -/
def uDelta (t : Tx) (pk : Nat) : Int :=
  if pk = t.senderPublicKey then t.amount else 0

/-- The confirmed-balance delta a transaction applies to the key `pk`. -/
def cDelta (t : Tx) (pk : Nat) : Int :=
  (if pk = t.recipientId then t.amount else 0) -
    (if pk = t.senderPublicKey then t.amount else 0)

theorem applyUnconfirmedTx_balance (L : Ledger) (t : Tx) :
    (applyUnconfirmedTx L t).balance = L.balance := rfl

theorem applyUnconfirmedTx_ubalance (L : Ledger) (t : Tx) (pk : Nat) :
    (applyUnconfirmedTx L t).ubalance pk = L.ubalance pk - uDelta t pk := by
  simp only [applyUnconfirmedTx, Ledger.updUBal, uDelta]
  split <;> ring

theorem undoUnconfirmedTx_balance (L : Ledger) (t : Tx) :
    (undoUnconfirmedTx L t).balance = L.balance := rfl

theorem undoUnconfirmedTx_ubalance (L : Ledger) (t : Tx) (pk : Nat) :
    (undoUnconfirmedTx L t).ubalance pk = L.ubalance pk + uDelta t pk := by
  simp only [undoUnconfirmedTx, Ledger.updUBal, uDelta]
  split <;> ring

theorem applyConfirmedTx_balance (L : Ledger) (t : Tx) (pk : Nat) :
    (applyConfirmedTx L t).balance pk = L.balance pk + cDelta t pk := by
  simp only [applyConfirmedTx, Ledger.updBal, cDelta]
  split <;> split <;> ring

theorem applyConfirmedTx_ubalance (L : Ledger) (t : Tx) :
    (applyConfirmedTx L t).ubalance = L.ubalance := rfl

theorem undoBothTx_balance (L : Ledger) (t : Tx) (pk : Nat) :
    (undoBothTx L t).balance pk = L.balance pk - cDelta t pk := by
  simp only [undoBothTx, undoUnconfirmedTx_balance, undoConfirmedTx, Ledger.updBal, cDelta]
  split <;> split <;> ring

theorem undoBothTx_ubalance (L : Ledger) (t : Tx) (pk : Nat) :
    (undoBothTx L t).ubalance pk = L.ubalance pk + uDelta t pk := by
  simp only [undoBothTx, undoUnconfirmedTx_ubalance]
  congr 1

theorem foldl_applyUnconfirmedTx_balance (ts : List Tx) (L : Ledger) :
    (ts.foldl applyUnconfirmedTx L).balance = L.balance := by
  induction ts generalizing L with
  | nil => rfl
  | cons t ts ih => simp [List.foldl_cons, ih, applyUnconfirmedTx_balance]

theorem foldl_applyUnconfirmedTx_ubalance (ts : List Tx) (L : Ledger) (pk : Nat) :
    (ts.foldl applyUnconfirmedTx L).ubalance pk =
      L.ubalance pk - (ts.map (fun t => uDelta t pk)).sum := by
  induction ts generalizing L with
  | nil => simp
  | cons t ts ih =>
    simp [List.foldl_cons, ih, applyUnconfirmedTx_ubalance]
    ring

theorem foldl_undoUnconfirmedTx_balance (ts : List Tx) (L : Ledger) :
    (ts.foldl undoUnconfirmedTx L).balance = L.balance := by
  induction ts generalizing L with
  | nil => rfl
  | cons t ts ih => simp [List.foldl_cons, ih, undoUnconfirmedTx_balance]

theorem foldl_undoUnconfirmedTx_ubalance (ts : List Tx) (L : Ledger) (pk : Nat) :
    (ts.foldl undoUnconfirmedTx L).ubalance pk =
      L.ubalance pk + (ts.map (fun t => uDelta t pk)).sum := by
  induction ts generalizing L with
  | nil => simp
  | cons t ts ih =>
    simp [List.foldl_cons, ih, undoUnconfirmedTx_ubalance]
    ring

theorem foldl_applyConfirmedTx_balance (ts : List Tx) (L : Ledger) (pk : Nat) :
    (ts.foldl applyConfirmedTx L).balance pk =
      L.balance pk + (ts.map (fun t => cDelta t pk)).sum := by
  induction ts generalizing L with
  | nil => simp
  | cons t ts ih =>
    simp [List.foldl_cons, ih, applyConfirmedTx_balance]
    ring

theorem foldl_applyConfirmedTx_ubalance (ts : List Tx) (L : Ledger) :
    (ts.foldl applyConfirmedTx L).ubalance = L.ubalance := by
  induction ts generalizing L with
  | nil => rfl
  | cons t ts ih => simp [List.foldl_cons, ih, applyConfirmedTx_ubalance]

theorem foldl_undoBothTx_balance (ts : List Tx) (L : Ledger) (pk : Nat) :
    (ts.foldl undoBothTx L).balance pk =
      L.balance pk - (ts.map (fun t => cDelta t pk)).sum := by
  induction ts generalizing L with
  | nil => simp
  | cons t ts ih =>
    simp [List.foldl_cons, ih, undoBothTx_balance]
    ring

theorem foldl_undoBothTx_ubalance (ts : List Tx) (L : Ledger) (pk : Nat) :
    (ts.foldl undoBothTx L).ubalance pk =
      L.ubalance pk + (ts.map (fun t => uDelta t pk)).sum := by
  induction ts generalizing L with
  | nil => simp
  | cons t ts ih =>
    simp [List.foldl_cons, ih, undoBothTx_ubalance]
    ring

theorem uDelta_blockId (t : Tx) (x : Nat) (pk : Nat) :
    uDelta { t with blockId := x } pk = uDelta t pk := rfl

theorem cDelta_blockId (t : Tx) (x : Nat) (pk : Nat) :
    cDelta { t with blockId := x } pk = cDelta t pk := rfl

/-! ### Success-path shapes of the pipelines -/

theorem runSeq_applyUnconfirmedOne_ok (env : Env)
    (h : ∀ i, env.applyUnconfirmedError i = none) (ts : List Tx) (s : ChainState) :
    runSeq (applyUnconfirmedOne env) ts s =
      (none, { s with ledger := ts.foldl applyUnconfirmedTx s.ledger }) := by
  induction ts generalizing s with
  | nil => simp [runSeq]
  | cons t ts ih => simp [runSeq, applyUnconfirmedOne, h, ih]

theorem runSeq_applyConfirmedOne_ok (env : Env)
    (h : ∀ i, env.applyConfirmedError i = none) (ts : List Tx) (s : ChainState) :
    runSeq (applyConfirmedOne env) ts s =
      (none, { s with ledger := ts.foldl applyConfirmedTx s.ledger }) := by
  induction ts generalizing s with
  | nil => simp [runSeq]
  | cons t ts ih => simp [runSeq, applyConfirmedOne, h, ih]

theorem runSeq_undoBothOne_ok (env : Env)
    (h1 : ∀ i, env.undoError i = none) (h2 : ∀ i, env.undoUnconfirmedError i = none)
    (ts : List Tx) (s : ChainState) :
    runSeq (undoBothOne env) ts s =
      (none, { s with ledger := ts.foldl undoBothTx s.ledger }) := by
  induction ts generalizing s with
  | nil => simp [runSeq]
  | cons t ts ih => simp [runSeq, undoBothOne, h1, h2, ih, undoBothTx]

/-- The state `applyBlock` commits when every collaborator call succeeds. -/
def applyBlockSuccState (b : Block) (s : ChainState) : ChainState :=
  { s with
    lastBlock := assignBlockIds b,
    isActive := false,
    storedBlocks := s.storedBlocks ++ [assignBlockIds b],
    ledger := b.transactions.foldl applyConfirmedTx
      (b.transactions.foldl applyUnconfirmedTx (s.pool.foldl undoUnconfirmedTx s.ledger)),
    pool := s.pool.filter (fun t => b.transactions.all (fun bt => bt.id != t.id)),
    bus := s.bus ++ [BusMsg.transactionsSaved ((assignBlockIds b).transactions.map Tx.id),
                     BusMsg.newBlock b.id],
    dbTxCommits := s.dbTxCommits ++ ["Chain:applyBlock"] }

theorem applyBlock_ok (env : Env)
    (h1 : env.undoUnconfirmedListError = none)
    (h2 : ∀ i, env.applyUnconfirmedError i = none)
    (h3 : ∀ i, env.applyConfirmedError i = none)
    (h4 : env.saveBlockError = none)
    (h5 : env.tickError = none)
    (b : Block) (s : ChainState) :
    applyBlock env b true s = (none, applyBlockSuccState b s) := by
  simp [applyBlock, undoUnconfirmedListStep, h1, applyBlockDbTx, applyBlockBody,
    applyUnconfirmedStep, applyConfirmedStep, runSeq_applyUnconfirmedOne_ok env h2,
    runSeq_applyConfirmedOne_ok env h3, saveBlockStep, saveBlock, h4, tickStep, h5,
    applyBlockSuccState]

/-- The state `deleteLastBlock` leaves behind when every collaborator call
succeeds: register moved to the parent, old tip's row deleted, each
transaction undone (confirmed then unconfirmed, tail to head) and then
reinserted into the pool in the block's original order. -/
def deleteLastBlockSuccState (P : Block) (s : ChainState) : ChainState :=
  { s with
    lastBlock := P,
    storedBlocks := s.storedBlocks.filter (fun bb => bb.id != s.lastBlock.id),
    ledger := s.lastBlock.transactions.foldl applyUnconfirmedTx
      (s.lastBlock.transactions.reverse.foldl undoBothTx s.ledger),
    pool := s.pool ++ s.lastBlock.transactions,
    dbTxCommits := s.dbTxCommits ++ ["Chain:deleteBlock"] }

theorem deleteLastBlock_ok (env : Env) (s : ChainState)
    (hh : s.lastBlock.height ≠ 1)
    (hl : env.loadBlocksPartError = none)
    (hu : ∀ i, env.undoError i = none)
    (huu : ∀ i, env.undoUnconfirmedError i = none)
    (hb : env.backwardTickError = none)
    (hd : env.deleteBlockError = none)
    (hr : env.receiveTransactionsError = none)
    (P : Block) (hfind : lookupBlock s.storedBlocks s.lastBlock.previousBlock = some P) :
    deleteLastBlock env s = (none, deleteLastBlockSuccState P s) := by
  simp [deleteLastBlock, hh, deleteLastBlockMain, popLastBlock, hl, hfind,
    runSeq_undoBothOne_ok env hu huu, hb, deleteBlock, hd, hr,
    deleteLastBlockSuccState, List.reverse_reverse]

theorem lookupBlock_append_left (l1 l2 : List Block) (pid : Nat) (x : Block)
    (h : lookupBlock l1 pid = some x) : lookupBlock (l1 ++ l2) pid = some x := by
  simp only [lookupBlock, List.find?_append]
  simp only [lookupBlock] at h
  rw [h]
  rfl

theorem filter_not_own_id (ts : List Tx) :
    ts.filter (fun t => ts.all (fun bt => bt.id != t.id)) = [] := by
  rw [List.filter_eq_nil_iff]
  intro a ha
  simp only [List.all_eq_true, bne_iff_ne, ne_eq, not_forall]
  exact ⟨a, ha, by simp⟩

theorem tx_id_blockId (t : Tx) (x : Nat) : ({ t with blockId := x } : Tx).id = t.id := rfl

theorem map_tx_id_map_assign (x : Nat) (ts : List Tx) :
    (ts.map (fun t => ({ t with blockId := x } : Tx))).map Tx.id = ts.map Tx.id := by
  induction ts with
  | nil => rfl
  | cons t ts ih => simp only [List.map_cons, ih, tx_id_blockId]

/-! ### Concrete fixtures used by witnesses and counterexamples -/

/-- TRANSFER_a of the genesis-sort scenario. -/
def txA : Tx := ⟨1, 0, 11, 12, 5, 0⟩
/-- VOTE_b of the genesis-sort scenario. -/
def txVb : Tx := ⟨2, 3, 13, 14, 4, 0⟩
/-- TRANSFER_c of the genesis-sort scenario. -/
def txC : Tx := ⟨3, 0, 15, 16, 7, 0⟩
/-- VOTE_d of the genesis-sort scenario. -/
def txVd : Tx := ⟨4, 3, 17, 18, 9, 0⟩
/-- A genesis block whose raw transaction sequence is
[TRANSFER_a, VOTE_b, TRANSFER_c, VOTE_d]. -/
def genesisFour : Block := ⟨77, 1, 0, [txA, txVb, txC, txVd]⟩

/-- A ledger giving every key balance 1000 in both views. -/
def baseLedger : Ledger := ⟨fun _ => 1000, fun _ => 1000⟩

/-- A chain tip at height 100 with id 10. -/
def tipT : Block := ⟨10, 100, 9, []⟩
/-- A transfer of 25 units from key 31 to key 32. -/
def tx1 : Tx := ⟨21, 0, 31, 32, 25, 0⟩
/-- A transfer of 7 units from key 33 to key 34. -/
def tx2 : Tx := ⟨22, 0, 33, 34, 7, 0⟩
/-- A valid successor of `tipT`: height 101, parent id 10. -/
def blockB : Block := ⟨11, 101, 10, [tx1, tx2]⟩
/-- State whose register and storage hold `tipT` and whose pool holds the
transactions of `blockB`. -/
def stateS : ChainState := ⟨tipT, false, [tipT], baseLedger, [tx1, tx2], [], false, false, []⟩

/-- State whose tip is `blockB` (height 101), with `tipT` stored as parent
and an empty pool. -/
def stateTip2 : ChainState :=
  ⟨blockB, false, [tipT, blockB], baseLedger, [], [], false, false, []⟩

/-- A tip of height 0 (below the genesis height). -/
def tipZero : Block := ⟨5, 0, 7, []⟩
/-- The stored parent of `tipZero`. -/
def parent7 : Block := ⟨7, 0, 0, []⟩
/-- State whose register holds the height-0 tip `tipZero`. -/
def stateZero : ChainState := ⟨tipZero, false, [parent7], baseLedger, [], [], false, false, []⟩

/-- State whose register holds a height-1 (genesis) tip. -/
def stateGenesisTip : ChainState :=
  ⟨genesisFour, false, [genesisFour], baseLedger, [], [], false, false, []⟩

/-- State with empty storage. -/
def emptyStoreState : ChainState := ⟨tipT, false, [], baseLedger, [], [], false, false, []⟩

/-- An environment where only the forward round tick fails, with error `e`. -/
def envTickFail (e : Err) : Env := { Env.ok with tickError := some e }

/-- An environment where only the confirmed-apply of transactions fails. -/
def envConfirmFail (m : String) : Env := { Env.ok with applyConfirmedError := fun _ => some m }

/-- An environment where only the pool reinsertion (`receiveTransactions`)
fails. -/
def envRecvFail (m : String) : Env := { Env.ok with receiveTransactionsError := some m }

/-- The snapshot sentinel: an error object whose `name` is
`Snapshot finished`. -/
def snapshotErr : Err := ⟨some "Snapshot finished", "Snapshot finished"⟩

/-! ### The claims -/

/-- An extra pending pool transaction (13 units from key 35) that is not
part of `blockB`. -/
def txExtra : Tx := ⟨23, 0, 35, 36, 13, 0⟩

/-- State whose register and storage hold `tipT` and whose pool holds the
transactions of `blockB` plus the unrelated pending `txExtra`. -/
def stateSX : ChainState :=
  ⟨tipT, false, [tipT], baseLedger, [tx1, tx2, txExtra], [], false, false, []⟩

/-- C2 counterexample: a valid block applied successfully on top of the tip
while the pool also holds one unrelated pending transaction (13 units from
key 35).  `applyBlock; deleteLastBlock` succeeds and restores the register,
yet key 35's unconfirmed balance ends at 1013, not its pre-apply 1000: the
entry undo-unconfirmed-pool step undid the pending transaction's effect and
the sequence reapplies only the block's own transactions, so not every
unconfirmed balance is restored. -/
theorem roundTripUnconfirmedDrift_cex :
    blockB.previousBlock = stateSX.lastBlock.id ∧
    blockB.height = stateSX.lastBlock.height + 1 ∧
    (applyBlock Env.ok blockB true stateSX).1 = none ∧
    (deleteLastBlock Env.ok (applyBlock Env.ok blockB true stateSX).2).1 = none ∧
    (deleteLastBlock Env.ok (applyBlock Env.ok blockB true stateSX).2).2.lastBlock = tipT ∧
    stateSX.ledger.ubalance 35 = 1000 ∧
    (deleteLastBlock Env.ok (applyBlock Env.ok blockB true stateSX).2).2.ledger.ubalance 35
        = 1013 := by
  decide

/-- C2 (amended): for every valid block `b` applied successfully on top of
the durably stored tip, `applyBlock` followed by `deleteLastBlock` restores
the Last-Block Register to the old tip, restores every confirmed balance to
its pre-apply value, and returns every transaction of `b` to the
Transaction Pool.  Unconfirmed balances are not restored in general: each
key ends offset by the undone unconfirmed amounts of the whole pre-apply
pool minus those of `b`'s own transactions (the entry undo-unconfirmed-pool
step is reapplied only for `b`'s transactions), so they are restored
exactly when these cancel - in particular when the pre-apply pool consists
precisely of `b`'s transactions. -/
theorem roundTripRestoresRegisterConfirmedAndPool (b : Block) (s : ChainState)
    (hheight : b.height = s.lastBlock.height + 1)
    (hgen : s.lastBlock.height ≠ 0)
    (hprev : b.previousBlock = s.lastBlock.id)
    (hfind : lookupBlock s.storedBlocks s.lastBlock.id = some s.lastBlock) :
    (applyBlock Env.ok b true s).1 = none ∧
    (deleteLastBlock Env.ok (applyBlock Env.ok b true s).2).1 = none ∧
    (deleteLastBlock Env.ok (applyBlock Env.ok b true s).2).2.lastBlock = s.lastBlock ∧
    (∀ pk, (deleteLastBlock Env.ok (applyBlock Env.ok b true s).2).2.ledger.balance pk
            = s.ledger.balance pk) ∧
    (∀ t, t ∈ b.transactions →
      t.id ∈ (deleteLastBlock Env.ok (applyBlock Env.ok b true s).2).2.pool.map Tx.id) ∧
    (∀ pk, (deleteLastBlock Env.ok (applyBlock Env.ok b true s).2).2.ledger.ubalance pk
            = s.ledger.ubalance pk
              + (s.pool.map (fun t => uDelta t pk)).sum
              - (b.transactions.map (fun t => uDelta t pk)).sum) ∧
    (s.pool = b.transactions →
      ∀ pk, (deleteLastBlock Env.ok (applyBlock Env.ok b true s).2).2.ledger.ubalance pk
            = s.ledger.ubalance pk) := by
  have hA : applyBlock Env.ok b true s = (none, applyBlockSuccState b s) :=
    applyBlock_ok Env.ok rfl (fun _ => rfl) (fun _ => rfl) rfl rfl b s
  have hh1 : (applyBlockSuccState b s).lastBlock.height ≠ 1 := by
    show b.height ≠ 1
    rw [hheight]
    omega
  have hfind1 : lookupBlock (applyBlockSuccState b s).storedBlocks
      (applyBlockSuccState b s).lastBlock.previousBlock = some s.lastBlock := by
    show lookupBlock (s.storedBlocks ++ [assignBlockIds b]) b.previousBlock = some s.lastBlock
    rw [hprev]
    exact lookupBlock_append_left _ _ _ _ hfind
  have hD : deleteLastBlock Env.ok (applyBlockSuccState b s)
      = (none, deleteLastBlockSuccState s.lastBlock (applyBlockSuccState b s)) :=
    deleteLastBlock_ok Env.ok (applyBlockSuccState b s) hh1 rfl (fun _ => rfl) (fun _ => rfl)
      rfl rfl rfl s.lastBlock hfind1
  have hub : ∀ pk, (deleteLastBlock Env.ok (applyBlock Env.ok b true s).2).2.ledger.ubalance pk
      = s.ledger.ubalance pk
        + (s.pool.map (fun t => uDelta t pk)).sum
        - (b.transactions.map (fun t => uDelta t pk)).sum := by
    intro pk
    rw [hA, show ((none, applyBlockSuccState b s) : StepResult).2 = applyBlockSuccState b s
        from rfl, hD]
    show (deleteLastBlockSuccState s.lastBlock (applyBlockSuccState b s)).ledger.ubalance pk
        = _
    simp only [deleteLastBlockSuccState, applyBlockSuccState, assignBlockIds,
      foldl_applyUnconfirmedTx_ubalance, foldl_undoBothTx_ubalance,
      foldl_applyConfirmedTx_ubalance, foldl_undoUnconfirmedTx_ubalance,
      List.map_reverse, List.sum_reverse, List.map_map, Function.comp_def, uDelta_blockId]
    ring
  rw [hA] at hub
  rw [hA]
  refine ⟨rfl, ?_, ?_, ?_, ?_, ?_, ?_⟩
  · rw [show ((none, applyBlockSuccState b s) : StepResult).2 = applyBlockSuccState b s
        from rfl, hD]
  · rw [show ((none, applyBlockSuccState b s) : StepResult).2 = applyBlockSuccState b s
        from rfl, hD]
    rfl
  · intro pk
    rw [show ((none, applyBlockSuccState b s) : StepResult).2 = applyBlockSuccState b s
        from rfl, hD]
    show (deleteLastBlockSuccState s.lastBlock (applyBlockSuccState b s)).ledger.balance pk
        = s.ledger.balance pk
    simp only [deleteLastBlockSuccState, applyBlockSuccState, assignBlockIds,
      foldl_applyUnconfirmedTx_balance, foldl_undoBothTx_balance,
      foldl_applyConfirmedTx_balance, foldl_undoUnconfirmedTx_balance,
      List.map_reverse, List.sum_reverse, List.map_map, Function.comp_def, cDelta_blockId]
    ring
  · intro t ht
    rw [show ((none, applyBlockSuccState b s) : StepResult).2 = applyBlockSuccState b s
        from rfl, hD]
    show t.id ∈ (deleteLastBlockSuccState s.lastBlock (applyBlockSuccState b s)).pool.map Tx.id
    simp only [deleteLastBlockSuccState, applyBlockSuccState, assignBlockIds,
      List.map_append, map_tx_id_map_assign, List.mem_append]
    exact Or.inr (List.mem_map_of_mem Tx.id ht)
  · exact hub
  · intro hpool pk
    rw [hub pk, hpool]
    ring

/-- Witness for the amended C2 at the concrete state whose pool carries an
extra pending transaction beyond the block's own. -/
theorem roundTripRestoresRegisterConfirmedAndPool_witness :
    (applyBlock Env.ok blockB true stateSX).1 = none ∧
    (deleteLastBlock Env.ok (applyBlock Env.ok blockB true stateSX).2).1 = none ∧
    (deleteLastBlock Env.ok (applyBlock Env.ok blockB true stateSX).2).2.lastBlock
        = stateSX.lastBlock ∧
    (deleteLastBlock Env.ok (applyBlock Env.ok blockB true stateSX).2).2.ledger.balance 31
        = stateSX.ledger.balance 31 ∧
    tx1.id ∈ (deleteLastBlock Env.ok (applyBlock Env.ok blockB true stateSX).2).2.pool.map
        Tx.id ∧
    (deleteLastBlock Env.ok (applyBlock Env.ok blockB true stateSX).2).2.ledger.ubalance 35
        = stateSX.ledger.ubalance 35
          + (stateSX.pool.map (fun t => uDelta t 35)).sum
          - (blockB.transactions.map (fun t => uDelta t 35)).sum := by
  have h := roundTripRestoresRegisterConfirmedAndPool blockB stateSX rfl (by decide) rfl
    (by decide)
  exact ⟨h.1, h.2.1, h.2.2.1, h.2.2.2.1 31, h.2.2.2.2.1 tx1 (by decide), h.2.2.2.2.2.1 35⟩

theorem runSeq_applyConfirmedOne_failHead (m : String) (t : Tx) (ts : List Tx) (s : ChainState) :
    runSeq (applyConfirmedOne (envConfirmFail m)) (t :: ts) s =
      (some (strErr ("Failed to apply transaction: " ++ toString t.id)), s) := by
  simp [runSeq, applyConfirmedOne, envConfirmFail, Env.ok]

/-- Shape of `applyBlock` when the confirmed-apply of the first transaction
fails: the persistence transaction rolls back, and since `saveBlockStep` was
never reached the register, the bus and the storage are untouched; only the
pre-transaction pool undo on the ledger and the cleared `isActive` remain. -/
theorem applyBlock_confirmFail_eq (m : String) (b : Block) (s : ChainState)
    (t : Tx) (ts : List Tx) (htx : b.transactions = t :: ts) :
    applyBlock (envConfirmFail m) b true s =
      (some (strErr ("Failed to apply transaction: " ++ toString t.id)),
       { s with ledger := s.pool.foldl undoUnconfirmedTx s.ledger, isActive := false }) := by
  simp only [applyBlock, undoUnconfirmedListStep,
    show (envConfirmFail m).undoUnconfirmedListError = none from rfl]
  simp only [applyBlockDbTx, applyBlockBody, applyUnconfirmedStep,
    runSeq_applyUnconfirmedOne_ok (envConfirmFail m) (fun _ => rfl),
    applyConfirmedStep, htx, runSeq_applyConfirmedOne_failHead]
  simp [rollbackDb, strErr]

/-- Shape of `applyBlock` when only the forward round tick fails: the
persistence transaction rolls back the database state, but the register
already points at the new block and `newBlock` has already been emitted. -/
theorem applyBlock_tickFail_eq (e : Err) (b : Block) (s : ChainState) :
    applyBlock (envTickFail e) b true s =
      (some e,
       { s with
          lastBlock := assignBlockIds b,
          isActive := false,
          ledger := s.pool.foldl undoUnconfirmedTx s.ledger,
          bus := s.bus ++ [BusMsg.transactionsSaved ((assignBlockIds b).transactions.map Tx.id),
                           BusMsg.newBlock b.id],
          sigterm := if e.name = some "Snapshot finished" then true else s.sigterm }) := by
  simp only [applyBlock, undoUnconfirmedListStep,
    show (envTickFail e).undoUnconfirmedListError = none from rfl]
  simp only [applyBlockDbTx, applyBlockBody, applyUnconfirmedStep,
    runSeq_applyUnconfirmedOne_ok (envTickFail e) (fun _ => rfl),
    applyConfirmedStep, runSeq_applyConfirmedOne_ok (envTickFail e) (fun _ => rfl),
    saveBlockStep, saveBlock, show (envTickFail e).saveBlockError = none from rfl,
    tickStep, show (envTickFail e).tickError = some e from rfl]
  by_cases hn : e.name = some "Snapshot finished" <;> simp [rollbackDb, hn]


/-- C1 counterexample: a concrete apply in which only the forward round tick
fails.  The persistence transaction rolls back (the new block is not
stored), yet the Last-Block Register points at the failed block - not the
pre-apply tip - and a `newBlock` message for the failed block has been
emitted on the bus, refuting the claim that the register is updated and
`newBlock` emitted only after commit. -/
theorem registerUpdatedInsideTx_cex :
    (applyBlock (envTickFail (strErr "tick failure")) blockB true stateS).1 ≠ none ∧
    (applyBlock (envTickFail (strErr "tick failure")) blockB true stateS).2.lastBlock.id
        = blockB.id ∧
    blockB.id ≠ tipT.id ∧
    BusMsg.newBlock blockB.id
        ∈ (applyBlock (envTickFail (strErr "tick failure")) blockB true stateS).2.bus ∧
    lookupBlock
        (applyBlock (envTickFail (strErr "tick failure")) blockB true stateS).2.storedBlocks
        blockB.id = none := by
  decide

/-- C1 (amended): the Last-Block Register is set to the new block and
`newBlock` is emitted inside the persistence transaction (in
`saveBlockStep`), not after commit, and a rollback does not undo them.  When
a step before `saveBlockStep` fails (here: the confirmed apply of the first
transaction), the register, the bus and the storage are indeed untouched;
but when the round tick fails after the block save, the transaction rolls
back the storage while the register already holds the failed block and a
`newBlock` message for it is already on the bus. -/
theorem registerUpdateAndNewBlockBoundary (m : String) (e : Err) (b : Block) (s : ChainState)
    (hne : b.transactions ≠ []) :
    ((applyBlock (envConfirmFail m) b true s).1 ≠ none ∧
     (applyBlock (envConfirmFail m) b true s).2.lastBlock = s.lastBlock ∧
     (applyBlock (envConfirmFail m) b true s).2.bus = s.bus ∧
     (applyBlock (envConfirmFail m) b true s).2.storedBlocks = s.storedBlocks) ∧
    ((applyBlock (envTickFail e) b true s).1 = some e ∧
     (applyBlock (envTickFail e) b true s).2.lastBlock = assignBlockIds b ∧
     (applyBlock (envTickFail e) b true s).2.bus
        = s.bus ++ [BusMsg.transactionsSaved ((assignBlockIds b).transactions.map Tx.id),
                    BusMsg.newBlock b.id] ∧
     (applyBlock (envTickFail e) b true s).2.storedBlocks = s.storedBlocks) := by
  obtain ⟨t, ts, htx⟩ := List.exists_cons_of_ne_nil hne
  rw [applyBlock_confirmFail_eq m b s t ts htx, applyBlock_tickFail_eq e b s]
  refine ⟨⟨by simp, rfl, rfl, rfl⟩, rfl, rfl, rfl, rfl⟩

/-- Witness for the amended C1 at a concrete block, state and errors. -/
theorem registerUpdateAndNewBlockBoundary_witness :
    ((applyBlock (envConfirmFail "boom") blockB true stateS).1 ≠ none ∧
     (applyBlock (envConfirmFail "boom") blockB true stateS).2.lastBlock = stateS.lastBlock ∧
     (applyBlock (envConfirmFail "boom") blockB true stateS).2.bus = stateS.bus ∧
     (applyBlock (envConfirmFail "boom") blockB true stateS).2.storedBlocks
        = stateS.storedBlocks) ∧
    ((applyBlock (envTickFail (strErr "t")) blockB true stateS).1 = some (strErr "t") ∧
     (applyBlock (envTickFail (strErr "t")) blockB true stateS).2.lastBlock
        = assignBlockIds blockB ∧
     (applyBlock (envTickFail (strErr "t")) blockB true stateS).2.bus
        = stateS.bus ++
            [BusMsg.transactionsSaved ((assignBlockIds blockB).transactions.map Tx.id),
             BusMsg.newBlock blockB.id] ∧
     (applyBlock (envTickFail (strErr "t")) blockB true stateS).2.storedBlocks
        = stateS.storedBlocks) :=
  registerUpdateAndNewBlockBoundary "boom" (strErr "t") blockB stateS (by decide)

/-- C3 counterexample: `Chain.prototype.applyBlock` performs no
precondition check.  A block whose `previousBlock` differs from the tip's
id and whose height is not the tip's height plus one is applied without any
`ValidationError`, and the tip moves to it. -/
theorem applyBlockNoValidation_cex :
    (⟨12, 55, 99, []⟩ : Block).previousBlock ≠ stateS.lastBlock.id ∧
    (⟨12, 55, 99, []⟩ : Block).height ≠ stateS.lastBlock.height + 1 ∧
    (applyBlock Env.ok ⟨12, 55, 99, []⟩ true stateS).1 = none ∧
    (applyBlock Env.ok ⟨12, 55, 99, []⟩ true stateS).2.lastBlock.id = 12 := by
  decide

/-- C3 (amended): `applyBlock` itself validates neither `previousBlockId`
nor height (those checks live in callers outside this module); with no
collaborator failure it succeeds and moves the register and the storage to
the given block even when its parent id does not match the tip. -/
theorem applyBlockNoParentValidation (b : Block) (s : ChainState)
    (_hprev : b.previousBlock ≠ s.lastBlock.id) :
    (applyBlock Env.ok b true s).1 = none ∧
    (applyBlock Env.ok b true s).2.lastBlock = assignBlockIds b ∧
    (applyBlock Env.ok b true s).2.storedBlocks = s.storedBlocks ++ [assignBlockIds b] := by
  rw [applyBlock_ok Env.ok rfl (fun _ => rfl) (fun _ => rfl) rfl rfl b s]
  exact ⟨rfl, rfl, rfl⟩

/-- Witness for the amended C3 at a concrete mismatched block. -/
theorem applyBlockNoParentValidation_witness :
    (applyBlock Env.ok ⟨12, 55, 99, []⟩ true stateS).1 = none ∧
    (applyBlock Env.ok ⟨12, 55, 99, []⟩ true stateS).2.lastBlock
        = assignBlockIds ⟨12, 55, 99, []⟩ ∧
    (applyBlock Env.ok ⟨12, 55, 99, []⟩ true stateS).2.storedBlocks
        = stateS.storedBlocks ++ [assignBlockIds ⟨12, 55, 99, []⟩] :=
  applyBlockNoParentValidation ⟨12, 55, 99, []⟩ stateS (by decide)

/-- C5 counterexample: when the round tick aborts the persistence
transaction with the `Snapshot finished` sentinel, `applyBlock` does emit
the shutdown signal, but it also hands the sentinel to its caller on the
error channel - the caller receives it exactly like a failure, refuting
"does not report the sentinel to its caller". -/
theorem snapshotSentinelReported_cex :
    (applyBlock (envTickFail snapshotErr) blockB true stateS).1 = some snapshotErr ∧
    (applyBlock (envTickFail snapshotErr) blockB true stateS).2.sigterm = true := by
  decide

/-- C5 (amended): the special treatment of the `Snapshot finished` sentinel
consists solely of emitting SIGTERM to the supervisor; the sentinel is
still propagated to the caller on the error channel like any other
failure. -/
theorem snapshotSentinelSigtermAndPropagate (e : Err) (b : Block) (s : ChainState)
    (hname : e.name = some "Snapshot finished") :
    (applyBlock (envTickFail e) b true s).1 = some e ∧
    (applyBlock (envTickFail e) b true s).2.sigterm = true := by
  rw [applyBlock_tickFail_eq e b s]
  exact ⟨rfl, by simp [hname]⟩

/-- Witness for the amended C5 at the concrete sentinel error. -/
theorem snapshotSentinelSigtermAndPropagate_witness :
    (applyBlock (envTickFail snapshotErr) blockB true stateS).1 = some snapshotErr ∧
    (applyBlock (envTickFail snapshotErr) blockB true stateS).2.sigterm = true :=
  snapshotSentinelSigtermAndPropagate snapshotErr blockB stateS rfl

/-- Whatever happens inside the `Chain:applyBlock` persistence transaction,
both the commit handler and the rollback handler clear `isActive`. -/
theorem applyBlockDbTx_isActive (env : Env) (b : Block) (save : Bool) (s1 : ChainState) :
    (applyBlockDbTx env b save s1).2.isActive = false := by
  unfold applyBlockDbTx
  rcases h : applyBlockBody env b save { s1 with isActive := true } with ⟨e, s3⟩
  cases e with
  | none => rfl
  | some e =>
    simp only
    split <;> rfl

/-- C6: on every exit path of `applyBlock` - success, failure of any step
inside the persistence transaction, and failure of the initial
undo-unconfirmed-pool step - the `isActive` flag is false when `applyBlock`
returns (the undo-unconfirmed-pool step runs before the flag is ever set,
so on its failure path the flag keeps its entry value, false by the
operation's precondition). -/
theorem applyBlockClearsIsActive (env : Env) (b : Block) (save : Bool) (s : ChainState)
    (h : s.isActive = false) :
    (applyBlock env b save s).2.isActive = false := by
  unfold applyBlock undoUnconfirmedListStep
  cases henv : env.undoUnconfirmedListError with
  | some m => exact h
  | none => exact applyBlockDbTx_isActive env b save _

/-- Witness for C6: a concrete failing apply (round tick fails) still
returns with `isActive` false. -/
theorem applyBlockClearsIsActive_witness :
    (applyBlock (envTickFail (strErr "tick failure")) blockB true stateS).2.isActive = false :=
  applyBlockClearsIsActive (envTickFail (strErr "tick failure")) blockB true stateS rfl

/-- C7 counterexample: deleting a tip whose transaction sequence is
[tx1, tx2] reinserts them into the pool as [tx1, tx2] - the block's original
order - not the claimed reversed order [tx2, tx1].  `popLastBlock` reversed
the shared transactions array in place for its undo iteration, and the
reinsertion site of `deleteLastBlock` reverses that same array again. -/
theorem reinsertReversed_cex :
    stateTip2.lastBlock.transactions.map Tx.id = [21, 22] ∧
    (deleteLastBlock Env.ok stateTip2).1 = none ∧
    (deleteLastBlock Env.ok stateTip2).2.pool.map Tx.id = [21, 22] ∧
    ([21, 22] : List Nat) ≠ [22, 21] := by
  decide

/-- C7 (amended): on a successful `deleteLastBlock` the undone transactions
are reinserted into the pool outside the persistence transaction, but in the
block's original order [t1, ..., tn] (the two in-place reversals of the
shared array cancel), and the register is then set to the parent. -/
theorem deleteLastBlockReinsertsOriginalOrder (s : ChainState) (P : Block)
    (hh : s.lastBlock.height ≠ 1)
    (hfind : lookupBlock s.storedBlocks s.lastBlock.previousBlock = some P) :
    (deleteLastBlock Env.ok s).1 = none ∧
    (deleteLastBlock Env.ok s).2.pool = s.pool ++ s.lastBlock.transactions ∧
    (deleteLastBlock Env.ok s).2.lastBlock = P := by
  rw [deleteLastBlock_ok Env.ok s hh rfl (fun _ => rfl) (fun _ => rfl) rfl rfl rfl P hfind]
  exact ⟨rfl, rfl, rfl⟩

/-- Witness for the amended C7 at the concrete two-transaction tip. -/
theorem deleteLastBlockReinsertsOriginalOrder_witness :
    (deleteLastBlock Env.ok stateTip2).1 = none ∧
    (deleteLastBlock Env.ok stateTip2).2.pool
        = stateTip2.pool ++ stateTip2.lastBlock.transactions ∧
    (deleteLastBlock Env.ok stateTip2).2.lastBlock = tipT :=
  deleteLastBlockReinsertsOriginalOrder stateTip2 tipT (by decide) (by decide)

/-- C8 counterexample: the genesis guard of `deleteLastBlock` tests
`height === 1`, not `height <= 1`.  On a (representable) tip of height 0 the
guard does not fire: the call does not fail with the cannot-delete-genesis
error, a persistence transaction is opened and committed, and the register
changes - refuting the claim for heights not greater than 1. -/
theorem genesisGuardHeightZero_cex :
    stateZero.lastBlock.height ≤ 1 ∧
    (deleteLastBlock Env.ok stateZero).1 ≠ some (strErr "Cannot delete genesis block") ∧
    (deleteLastBlock Env.ok stateZero).2.lastBlock ≠ stateZero.lastBlock ∧
    (deleteLastBlock Env.ok stateZero).2.dbTxCommits = ["Chain:deleteBlock"] := by
  decide

/-- C8 (amended): the guard fires exactly on height 1: when the tip's
height equals 1, `deleteLastBlock` fails with the cannot-delete-genesis
error and returns the state unchanged (no persistence transaction, no undo,
register untouched); for any other height - greater than 1 or below it -
the guard does not fire and the call proceeds with the delete waterfall. -/
theorem deleteLastBlockGenesisGuard (env : Env) (s : ChainState) :
    (s.lastBlock.height = 1 →
      deleteLastBlock env s = (some (strErr "Cannot delete genesis block"), s)) ∧
    (s.lastBlock.height ≠ 1 →
      deleteLastBlock env s = deleteLastBlockMain env s) := by
  constructor <;> intro h <;> simp [deleteLastBlock, h]

/-- Witness for the amended C8: on a concrete height-1 tip the guard fires
and the state is returned unchanged. -/
theorem deleteLastBlockGenesisGuard_witness :
    deleteLastBlock Env.ok stateGenesisTip
      = (some (strErr "Cannot delete genesis block"), stateGenesisTip) :=
  (deleteLastBlockGenesisGuard Env.ok stateGenesisTip).1 rfl

/-- C9: `saveGenesisBlock` is idempotent - a second call finds the genesis
id in storage and is a no-op, so two consecutive calls leave the stored
blocks identical to a single call - and when the genesis block is absent
the initial persist writes the header together with its transactions inside
the single persistence transaction `Chain:saveBlock`. -/
theorem saveGenesisBlockIdempotent (g : Block) (s : ChainState) :
    ((saveGenesisBlock Env.ok g (saveGenesisBlock Env.ok g s).2).2.storedBlocks
        = (saveGenesisBlock Env.ok g s).2.storedBlocks) ∧
    ((saveGenesisBlock Env.ok g (saveGenesisBlock Env.ok g s).2).1 = none) ∧
    (s.storedBlocks.any (fun b => b.id == g.id) = false →
      (saveGenesisBlock Env.ok g s).2.storedBlocks = s.storedBlocks ++ [assignBlockIds g] ∧
      (saveGenesisBlock Env.ok g s).2.dbTxCommits
          = s.dbTxCommits ++ ["Chain:saveBlock"]) := by
  by_cases hany : s.storedBlocks.any (fun b => b.id == g.id)
  · refine ⟨?_, ?_, ?_⟩
    · simp [saveGenesisBlock, hany]
    · simp [saveGenesisBlock, hany]
    · intro hfalse
      rw [hany] at hfalse
      cases hfalse
  · have h1 : saveGenesisBlock Env.ok g s
        = (none, { s with
            storedBlocks := s.storedBlocks ++ [assignBlockIds g],
            bus := s.bus ++ [BusMsg.transactionsSaved
              ((assignBlockIds g).transactions.map Tx.id)],
            dbTxCommits := s.dbTxCommits ++ ["Chain:saveBlock"] }) := by
      simp [saveGenesisBlock, hany, saveBlock, Env.ok]
    have h2 : ((s.storedBlocks ++ [assignBlockIds g]).any (fun b => b.id == g.id)) = true := by
      simp [List.any_append, assignBlockIds]
    rw [h1]
    refine ⟨?_, ?_, fun _ => ⟨rfl, rfl⟩⟩
    · simp [saveGenesisBlock, h2]
    · simp [saveGenesisBlock, h2]

/-- Witness for C9 starting from empty storage. -/
theorem saveGenesisBlockIdempotent_witness :
    ((saveGenesisBlock Env.ok genesisFour
        (saveGenesisBlock Env.ok genesisFour emptyStoreState).2).2.storedBlocks
      = (saveGenesisBlock Env.ok genesisFour emptyStoreState).2.storedBlocks) ∧
    ((saveGenesisBlock Env.ok genesisFour emptyStoreState).2.storedBlocks
      = emptyStoreState.storedBlocks ++ [assignBlockIds genesisFour]) := by
  have h := saveGenesisBlockIdempotent genesisFour emptyStoreState
  exact ⟨h.1, (h.2.2 rfl).1⟩

/-- C10: when the pool reinsertion (`receiveTransactions`) fails after the
persistence transaction of `deleteLastBlock` has committed, the error is
only logged: the register is still set to the parent block and the caller
receives no error, indistinguishable from full success. -/
theorem deleteLastBlockSwallowsPoolError (m : String) (s : ChainState) (P : Block)
    (hh : s.lastBlock.height ≠ 1)
    (hfind : lookupBlock s.storedBlocks s.lastBlock.previousBlock = some P) :
    (deleteLastBlock (envRecvFail m) s).1 = none ∧
    (deleteLastBlock (envRecvFail m) s).2.lastBlock = P ∧
    (deleteLastBlock (envRecvFail m) s).2.dbTxCommits
        = s.dbTxCommits ++ ["Chain:deleteBlock"] := by
  have hpop : popLastBlock (envRecvFail m) s.lastBlock s
      = PopResult.mk none P
          { s.lastBlock with transactions := s.lastBlock.transactions.reverse }
          { s with
            ledger := s.lastBlock.transactions.reverse.foldl undoBothTx s.ledger,
            storedBlocks := s.storedBlocks.filter (fun bb => bb.id != s.lastBlock.id),
            dbTxCommits := s.dbTxCommits ++ ["Chain:deleteBlock"] } := by
    simp only [popLastBlock, show (envRecvFail m).loadBlocksPartError = none from rfl, hfind,
      runSeq_undoBothOne_ok (envRecvFail m) (fun _ => rfl) (fun _ => rfl),
      show (envRecvFail m).backwardTickError = none from rfl, deleteBlock,
      show (envRecvFail m).deleteBlockError = none from rfl]
  simp only [deleteLastBlock, hh, if_neg hh, deleteLastBlockMain, hpop,
    show (envRecvFail m).receiveTransactionsError = some m from rfl]
  exact ⟨rfl, rfl, rfl⟩

/-- Witness for C10 at the concrete two-transaction tip. -/
theorem deleteLastBlockSwallowsPoolError_witness :
    (deleteLastBlock (envRecvFail "pool failure") stateTip2).1 = none ∧
    (deleteLastBlock (envRecvFail "pool failure") stateTip2).2.lastBlock = tipT ∧
    (deleteLastBlock (envRecvFail "pool failure") stateTip2).2.dbTxCommits
        = stateTip2.dbTxCommits ++ ["Chain:deleteBlock"] :=
  deleteLastBlockSwallowsPoolError "pool failure" stateTip2 tipT (by decide) (by decide)

/-- C4: the genesis sort diverges from the contracted stable VOTE-last
partition at the failing input [TRANSFER_a, VOTE_b, TRANSFER_c, VOTE_d].
The comparator `a => a.type === VOTE ? 1 : 0` ignores its second argument
and never returns a negative value, so the engine's sort does not produce
the stable partition: under the V8 short-array insertion sort the apply
order observed by the account store is
[TRANSFER_a, TRANSFER_c, VOTE_d, VOTE_b] - the VOTE group's relative order
is inverted - whereas the contract demands
[TRANSFER_a, TRANSFER_c, VOTE_b, VOTE_d]. -/
theorem genesisSortNotStablePartition_bug :
    genesisFour.transactions.map Tx.id = [1, 2, 3, 4] ∧
    (applyGenesisBlock Env.ok genesisFour emptyStoreState).1 = none ∧
    (applyGenesisBlock Env.ok genesisFour emptyStoreState).2.lastBlock.transactions.map Tx.id
        = [1, 3, 4, 2] ∧
    (specStablePartition genesisFour.transactions).map Tx.id = [1, 3, 2, 4] ∧
    (applyGenesisBlock Env.ok genesisFour emptyStoreState).2.lastBlock.transactions
        ≠ specStablePartition genesisFour.transactions := by
  decide

end LiskChain
